import Mathlib

/-!
Shallow embedding of the four test-fixture generator scripts
(`create-test-aadhaar.py`, `create-test-pan.py`, `create-test-passport.py`,
`create-test-visa.py`).  Each script hardcodes a string record, draws it as
text and shapes onto a blank raster canvas with PIL, saves the canvas as a
JPEG at quality 95, and prints the expected field values to the console.

The embedding represents a run of a script as a trace of events: one
`Event.draw` per PIL draw call, one `Event.save` per `image.save`, one
`Event.print` per `print` call, in source order.  Python dictionary access
(`d['k']`, raising `KeyError` when absent) is `Option`-valued lookup lifted
into `Except String`.  Font loading is parameterised by an oracle
`ok : String → Nat → Bool` saying whether `ImageFont.truetype path size`
returns without raising (for whatever reason it might raise); the unqualified
`except:` of every script is modelled by falling back to the built-in default
font whenever any of the three loads fails.
-/

/-- Character-list version of string prefix test, used by `strOccurs`. -/
def startsWithL : List Char → List Char → Bool
  | [], _ => true
  | _ :: _, [] => false
  | a :: as, b :: bs => a == b && startsWithL as bs

/-- Does the pattern occur contiguously inside the character list? -/
def occursIn (p : List Char) : List Char → Bool
  | [] => startsWithL p []
  | b :: bs => startsWithL p (b :: bs) || occursIn p bs

/-- Does string `v` occur as a contiguous substring of `s`? -/
def strOccurs (v s : String) : Bool := occursIn v.data s.data

/-- A PIL font handle: either a TrueType font loaded from a path at a pixel
size, or the built-in bitmap font returned by `ImageFont.load_default()`. -/
inductive Font where
  | truetype (path : String) (size : Nat)
  | load_default
deriving DecidableEq

/-- The three font-size tiers every script binds (`font_large`,
`font_medium`, `font_small`). -/
structure Fonts where
  font_large : Font
  font_medium : Font
  font_small : Font
deriving DecidableEq

/-- The hardcoded font path shared by all four scripts. -/
def arialPath : String := "/System/Library/Fonts/Arial.ttf"

/-- The binding produced by the bare `except:` branch: all three tiers are
`ImageFont.load_default()`. -/
def fallbackFonts : Fonts :=
  { font_large := Font.load_default
    font_medium := Font.load_default
    font_small := Font.load_default }

/-- The `try`/`except` font block common to all four scripts, with the
per-script pixel sizes as arguments.  `ok path size` reports whether
`ImageFont.truetype path size` completes without raising any exception;
if any of the three loads fails, the unqualified `except:` binds all three
tiers to the built-in default font. -/
def loadFontsWith (ok : String → Nat → Bool) (sL sM sS : Nat) : Fonts :=
  if ok arialPath sL && ok arialPath sM && ok arialPath sS then
    { font_large := Font.truetype arialPath sL
      font_medium := Font.truetype arialPath sM
      font_small := Font.truetype arialPath sS }
  else fallbackFonts

/-- One PIL draw call: a filled rectangle, an outlined rectangle, or a text
label (position, content, font handle, fill colour), exactly as issued by the
scripts. -/
inductive Directive where
  | rectFill (x0 y0 x1 y1 : Int) (fill : String)
  | rectOutline (x0 y0 x1 y1 : Int) (outline : String) (width : Nat)
  | text (x y : Int) (content : String) (font : Font) (fill : String)
deriving DecidableEq

/-- The in-memory raster surface: canvas size, background colour, and the
draw directives applied to it in order (later directives paint over earlier
ones). -/
structure Image where
  width : Nat
  height : Nat
  background : String
  directives : List Directive
deriving DecidableEq

/-- PIL `resize`: resamples the raster to the new dimensions (the directive
list, which records what was drawn, is unchanged; only the surface size
changes). -/
def Image.resize (image : Image) (w h : Nat) : Image :=
  { image with width := w, height := h }

/-- One `image.save(filename, format, quality=...)` call, together with the
dimensions of the surface that was encoded. -/
structure SavedFile where
  filename : String
  format : String
  quality : Nat
  width : Nat
  height : Nat
deriving DecidableEq

/-- An observable step of a script run: a draw call on the canvas, a file
write, or a console line. -/
inductive Event where
  | draw (d : Directive)
  | save (f : SavedFile)
  | print (line : String)
deriving DecidableEq

/-- Python dictionary lookup `r[k]` as an `Option`. -/
def getField (r : List (String × String)) (k : String) : Option String :=
  List.lookup k r

/-- Total variant of `getField` used when writing down record-derived
metadata (all lookups the scripts perform are proved to succeed). -/
def getFieldD (r : List (String × String)) (k : String) : String :=
  (getField r k).getD ""

/-- Lift a dictionary lookup into the script's control flow: a missing key
raises `KeyError`, which no script catches. -/
def orKeyError {α : Type} : Option α → Except String α
  | some a => Except.ok a
  | none => Except.error "KeyError"

/-- Process exit status of a run: 0 on normal completion, 1 when an uncaught
exception terminates the script. -/
def exitCode {α : Type} : Except String α → Nat
  | Except.ok _ => 0
  | Except.error _ => 1

/-- The events of a completed run (an aborted run has produced no trace we
track further). -/
def runEvents : Except String (List Event) → List Event
  | Except.ok t => t
  | Except.error _ => []

/-- The text contents drawn on the canvas during a trace. -/
def drawnTexts (t : List Event) : List String :=
  t.filterMap fun e => match e with
    | Event.draw (Directive.text _ _ s _ _) => some s
    | _ => none

/-- Is the value `v` drawn verbatim (as a contiguous substring of some text
directive) in the trace? -/
def valueDrawn (t : List Event) (v : String) : Bool :=
  (drawnTexts t).any fun s => strOccurs v s

/-- The console lines printed during a trace, in order. -/
def printedLines (t : List Event) : List String :=
  t.filterMap fun e => match e with
    | Event.print s => some s
    | _ => none

/-- The files written during a trace, in order. -/
def savedFiles (t : List Event) : List SavedFile :=
  t.filterMap fun e => match e with
    | Event.save f => some f
    | _ => none

/-- Is there a text directive at position `(x, y)` with content exactly `s`
in the trace? -/
def textAt (t : List Event) (x y : Int) (s : String) : Bool :=
  t.any fun e => match e with
    | Event.draw (Directive.text a b c _ _) => a == x && b == y && c == s
    | _ => false

/-- Event classifiers used to state the effect shape of a trace. -/
def isDrawEvent : Event → Bool
  | Event.draw _ => true
  | _ => false

def isPrintEvent : Event → Bool
  | Event.print _ => true
  | _ => false

/-- A trace consisting of draw events only: the shape of a renderer that
touches nothing but the in-memory surface. -/
def pureRendererTrace (t : List Event) : Bool := t.all isDrawEvent

/-- A trace of shape draws*, one save, prints*: all drawing precedes the
single file write, which precedes all console output. -/
def drawsSavePrints : List Event → Bool
  | [] => false
  | Event.draw _ :: rest => drawsSavePrints rest
  | Event.save _ :: rest => rest.all isPrintEvent
  | Event.print _ :: _ => false


/-! ## create-test-aadhaar.py -/

/-- The dictionary `aadhaar_data` (lines 26-33). -/
def aadhaar_data : List (String × String) :=
  [ ("name", "KATRINA UUENI"),
    ("aadhaar_number", "1234 5678 9012"),
    ("date_of_birth", "1990-10-19"),
    ("address", "Tallinn, Estonia"),
    ("gender", "Female"),
    ("father_name", "JOHN UUENI") ]

/-- The keys `create_test_aadhaar` looks up in `aadhaar_data` while drawing
(lines 42-47), in source order.  The print section (lines 61-65) looks up a
subset of these. -/
def aadhaar_render_keys : List String :=
  ["name", "aadhaar_number", "date_of_birth", "gender", "father_name", "address"]

/-- Body of `create_test_aadhaar` after font resolution: a 600x400 white
canvas, the draw calls of lines 36-54 in order, the `image.save` of line 57,
and the prints of lines 58-65.  A dictionary access with a missing key
raises `KeyError` out of the function (no script catches it); since the
function fails exactly when one of the accessed keys is absent, the accesses
are modelled by a presence guard over `aadhaar_render_keys` followed by
total lookups. -/
def create_test_aadhaar_body (fonts : Fonts) : Except String (List Event) :=
  if aadhaar_render_keys.all (fun k => (getField aadhaar_data k).isSome) then
    let name := getFieldD aadhaar_data "name"
    let number := getFieldD aadhaar_data "aadhaar_number"
    let dob := getFieldD aadhaar_data "date_of_birth"
    let gender := getFieldD aadhaar_data "gender"
    let father := getFieldD aadhaar_data "father_name"
    let address := getFieldD aadhaar_data "address"
    let ds : List Directive :=
      [ Directive.rectFill 0 0 600 60 "#FF6B35",
        Directive.text 20 20 "Government of India" fonts.font_large "white",
        Directive.text 20 45 "Aadhaar" fonts.font_medium "white",
        Directive.text 20 80 ("Name: " ++ name) fonts.font_medium "black",
        Directive.text 20 105 ("Aadhaar No: " ++ number) fonts.font_medium "black",
        Directive.text 20 130 ("Date of Birth: " ++ dob) fonts.font_medium "black",
        Directive.text 20 155 ("Gender: " ++ gender) fonts.font_medium "black",
        Directive.text 20 180 ("Father\x27s Name: " ++ father) fonts.font_medium "black",
        Directive.text 20 205 ("Address: " ++ address) fonts.font_medium "black",
        Directive.rectOutline 400 80 580 260 "black" 2,
        Directive.text 420 170 "QR Code" fonts.font_small "black",
        Directive.text 20 370 "This is a test Aadhaar card for development purposes"
          fonts.font_small "gray" ]
    let image : Image := { width := 600, height := 400, background := "white", directives := ds }
    let saved : SavedFile :=
      { filename := "aadhaar.jpg", format := "JPEG", quality := 95,
        width := image.width, height := image.height }
    let report : List String :=
      [ "Created aadhaar.jpg with Indian Aadhaar data",
        "",
        "Expected extracted data:",
        "Full Name: " ++ name,
        "Aadhaar Number: " ++ number,
        "Date of Birth: " ++ dob,
        "Address: " ++ address,
        "Gender: " ++ gender ]
    Except.ok (ds.map Event.draw ++ [Event.save saved] ++ report.map Event.print)
  else Except.error "KeyError"

/-- The function `create_test_aadhaar` (draws, saves and prints in one
function); `__main__` just calls it. -/
def create_test_aadhaar (ok : String → Nat → Bool) : Except String (List Event) :=
  create_test_aadhaar_body (loadFontsWith ok 24 16 12)

/-- Completed-run trace of the aadhaar script. -/
def aadhaar_trace (ok : String → Nat → Bool) : List Event :=
  runEvents (create_test_aadhaar ok)

/-! ## create-test-pan.py -/

/-- The dictionary `pan_data` (lines 26-31). -/
def pan_data : List (String × String) :=
  [ ("name", "KATRINA UUENI"),
    ("pan_number", "ABCDE1234F"),
    ("father_name", "JOHN UUENI"),
    ("date_of_birth", "1990-10-19") ]

/-- The keys `create_test_pan` looks up in `pan_data` while drawing
(lines 41-44), in source order.  The print section (lines 58-61) looks up
the same four keys. -/
def pan_render_keys : List String :=
  ["name", "father_name", "date_of_birth", "pan_number"]

/-- Body of `create_test_pan` after font resolution: a 600x400 tan canvas,
the draw calls of lines 34-51 in order, the `image.save` of line 54, and the
prints of lines 55-61.  Dictionary accesses are modelled by a presence guard
over `pan_render_keys` followed by total lookups (a missing key raises
`KeyError`). -/
def create_test_pan_body (fonts : Fonts) : Except String (List Event) :=
  if pan_render_keys.all (fun k => (getField pan_data k).isSome) then
    let name := getFieldD pan_data "name"
    let father := getFieldD pan_data "father_name"
    let dob := getFieldD pan_data "date_of_birth"
    let pan := getFieldD pan_data "pan_number"
    let ds : List Directive :=
      [ Directive.rectFill 0 0 600 60 "#8B4513",
        Directive.text 20 20 "INCOME TAX DEPARTMENT" fonts.font_large "white",
        Directive.text 20 45 "GOVT. OF INDIA" fonts.font_medium "white",
        Directive.text 20 80 "Permanent Account Number Card" fonts.font_medium "black",
        Directive.text 20 110 ("Name: " ++ name) fonts.font_medium "black",
        Directive.text 20 135 ("Father\x27s Name: " ++ father) fonts.font_medium "black",
        Directive.text 20 160 ("Date of Birth: " ++ dob) fonts.font_medium "black",
        Directive.text 20 185 ("PAN: " ++ pan) fonts.font_medium "black",
        Directive.rectOutline 400 150 580 200 "black" 1,
        Directive.text 420 175 "Signature" fonts.font_small "black",
        Directive.text 20 370 "This is a test PAN card for development purposes"
          fonts.font_small "gray" ]
    let image : Image := { width := 600, height := 400, background := "#D2B48C", directives := ds }
    let saved : SavedFile :=
      { filename := "pan.jpg", format := "JPEG", quality := 95,
        width := image.width, height := image.height }
    let report : List String :=
      [ "Created pan.jpg with Indian PAN card data",
        "",
        "Expected extracted data:",
        "Full Name: " ++ name,
        "PAN Number: " ++ pan,
        "Father\x27s Name: " ++ father,
        "Date of Birth: " ++ dob ]
    Except.ok (ds.map Event.draw ++ [Event.save saved] ++ report.map Event.print)
  else Except.error "KeyError"

/-- The function `create_test_pan` (draws, saves and prints in one function);
`__main__` just calls it. -/
def create_test_pan (ok : String → Nat → Bool) : Except String (List Event) :=
  create_test_pan_body (loadFontsWith ok 24 16 12)

/-- Completed-run trace of the pan script. -/
def pan_trace (ok : String → Nat → Bool) : List Event :=
  runEvents (create_test_pan ok)

/-! ## create-test-passport.py -/

/-- The module-level dictionary `passport_data` (lines 11-27). -/
def passport_data : List (String × String) :=
  [ ("type", "P"),
    ("country_code", "EST"),
    ("surname", "UUENI"),
    ("given_name", "KATRINA"),
    ("personal_code", "49010195221"),
    ("date_of_birth", "19.10.1990"),
    ("document_number", "KF0250087"),
    ("citizenship", "EST"),
    ("sex", "N/F"),
    ("place_of_birth", "EST"),
    ("date_of_issue", "13.02.2023"),
    ("date_of_expiry", "13.02.2033"),
    ("authority", "PPA/PBGB"),
    ("mrz_line1", "P<ESTUUENI<<KATRINA<<<<<<<<<<<<"),
    ("mrz_line2", "KF02500875EST9010196F330213049010195221<<<08") ]

/-- The keys `create_passport_image` looks up in `passport_data` while
drawing (lines 52-78), in source order.  `place_of_birth` is never looked
up: the place-of-birth and address lines are drawn as literals. -/
def passport_render_keys : List String :=
  [ "type", "country_code", "surname", "given_name", "personal_code",
    "citizenship", "date_of_birth", "sex", "document_number",
    "date_of_issue", "date_of_expiry", "authority", "mrz_line1", "mrz_line2" ]

/-- The keys the passport `__main__` print section (lines 92-93) looks up. -/
def passport_report_keys : List String :=
  ["surname", "given_name", "document_number"]

/-- Body of `create_passport_image` after font resolution: a 600x400 white
canvas and the draw calls of lines 47-78 in order.  The function returns the
surface and performs no file write and no console output.  Dictionary
accesses are modelled by a presence guard over `passport_render_keys`
followed by total lookups (a missing key would raise `KeyError` out of the
function, i.e. `none`). -/
def create_passport_image_body (fonts : Fonts) : Option Image :=
  if passport_render_keys.all (fun k => (getField passport_data k).isSome) then
    let ptype := getFieldD passport_data "type"
    let ccode := getFieldD passport_data "country_code"
    let surname := getFieldD passport_data "surname"
    let given := getFieldD passport_data "given_name"
    let pcode := getFieldD passport_data "personal_code"
    let citizenship := getFieldD passport_data "citizenship"
    let dob := getFieldD passport_data "date_of_birth"
    let sex := getFieldD passport_data "sex"
    let docnum := getFieldD passport_data "document_number"
    let issued := getFieldD passport_data "date_of_issue"
    let expiry := getFieldD passport_data "date_of_expiry"
    let authority := getFieldD passport_data "authority"
    let mrz1 := getFieldD passport_data "mrz_line1"
    let mrz2 := getFieldD passport_data "mrz_line2"
    let ds : List Directive :=
      [ Directive.rectOutline 10 10 590 50 "black" 2,
        Directive.text 20 20 "ESTONIAN PASSPORT" fonts.font_large "black",
        Directive.text 20 70 ("Liik/Type: " ++ ptype) fonts.font_medium "black",
        Directive.text 20 90 ("Riigi kood/Country code: " ++ ccode) fonts.font_medium "black",
        Directive.text 20 120 ("1. Perekonnanimi / Surname: " ++ surname) fonts.font_medium "black",
        Directive.text 20 140 ("2. Eesnimi / Given name: " ++ given) fonts.font_medium "black",
        Directive.text 20 160 ("3. Isikukood / Personal code: " ++ pcode) fonts.font_medium "black",
        Directive.text 20 180 ("4. Kodakondsus / Citizenship: " ++ citizenship)
          fonts.font_medium "black",
        Directive.text 20 200 ("5. Sünniaeg / Date of birth: " ++ dob) fonts.font_medium "black",
        Directive.text 20 220 ("6. Sugu / Sex: " ++ sex) fonts.font_medium "black",
        Directive.text 20 240 "7. Sünnikoht / Place of birth: Tallinn, Estonia"
          fonts.font_medium "black",
        Directive.text 20 260 "8. Aadress / Address: Tallinn, Estonia" fonts.font_medium "black",
        Directive.text 300 260 ("Dokumendi number: " ++ docnum) fonts.font_medium "black",
        Directive.text 300 280 ("8. Välja antud: " ++ issued) fonts.font_medium "black",
        Directive.text 300 300 ("9. Kehtiv kuni: " ++ expiry) fonts.font_medium "black",
        Directive.text 300 320 ("11. Väljaandja: " ++ authority) fonts.font_medium "black",
        Directive.text 300 340 "Address: Police and Border Guard Board, Tallinn, Estonia"
          fonts.font_medium "black",
        Directive.rectOutline 10 340 590 390 "black" 1,
        Directive.text 15 350 mrz1 fonts.font_small "black",
        Directive.text 15 365 mrz2 fonts.font_small "black" ]
    some { width := 600, height := 400, background := "white", directives := ds }
  else none

/-- The function `create_passport_image`: resolves fonts itself (sizes
16/12/10) and returns the rendered surface. -/
def create_passport_image (ok : String → Nat → Bool) : Option Image :=
  create_passport_image_body (loadFontsWith ok 16 12 10)

/-- The `__main__` block of the passport script (lines 82-97): render, save
as JPEG quality 95, then print the expected extracted data.  The full-name
and passport-number print lines access `passport_data` again; the
nationality, date-of-birth, expiry and issue lines print literals written in
the source. -/
def passport_main_body (fonts : Fonts) : Except String (List Event) :=
  match create_passport_image_body fonts with
  | none => Except.error "KeyError"
  | some image =>
    if passport_report_keys.all (fun k => (getField passport_data k).isSome) then
      let surname := getFieldD passport_data "surname"
      let given := getFieldD passport_data "given_name"
      let docnum := getFieldD passport_data "document_number"
      let saved : SavedFile :=
        { filename := "passport.jpg", format := "JPEG", quality := 95,
          width := image.width, height := image.height }
      let report : List String :=
        [ "Created passport.jpg with Estonian passport data",
          "\nExpected extracted data:",
          "Full Name: " ++ surname ++ ", " ++ given,
          "Passport Number: " ++ docnum,
          "Nationality: Estonia",
          "Date of Birth: 1990-10-19",
          "Expiry Date: 2033-02-13",
          "Issue Date: 2023-02-13" ]
      Except.ok (image.directives.map Event.draw ++ [Event.save saved] ++ report.map Event.print)
    else Except.error "KeyError"

/-- The passport script as run: `__main__` with fonts resolved at sizes
16/12/10. -/
def passport_main (ok : String → Nat → Bool) : Except String (List Event) :=
  passport_main_body (loadFontsWith ok 16 12 10)

/-- Completed-run trace of the passport script. -/
def passport_trace (ok : String → Nat → Bool) : List Event :=
  runEvents (passport_main ok)

/-- The events emitted by the renderer function `create_passport_image`
itself: its draw calls only (it writes no file and prints nothing). -/
def passport_renderer_trace (ok : String → Nat → Bool) : List Event :=
  match create_passport_image ok with
  | some image => image.directives.map Event.draw
  | none => []

/-! ## create-test-visa.py -/

/-- The module-level dictionary `visa_data` (lines 11-29). -/
def visa_data : List (String × String) :=
  [ ("visa_type", "Tourist"),
    ("visa_category", "e-Visa"),
    ("visa_number", "900F3927P"),
    ("country", "India"),
    ("authority", "BUREAU OF IMMIGRATION INDIA"),
    ("issue_date", "14 MAR 2025"),
    ("expiry_date", "09 Mar 2026"),
    ("place_of_issue", "New Delhi"),
    ("purpose_of_visit", "Tourism"),
    ("port_of_entry", "IGI AIRPORT, NEW DELHI"),
    ("entries", "MULTIPLE"),
    ("stay_duration", "Each Stay not to exceed 90 days"),
    ("nationality", "Estonia"),
    ("passport_number", "KF0250087"),
    ("visa_status", "Active"),
    ("remarks", "Valid for tourism and leisure activities"),
    ("code", "C4") ]

/-- The keys `create_visa_image` looks up in `visa_data` while drawing
(lines 54-75), in source order.  `code` is never looked up. -/
def visa_render_keys : List String :=
  [ "visa_type", "visa_category", "visa_number", "country", "authority",
    "place_of_issue", "purpose_of_visit", "issue_date", "expiry_date",
    "port_of_entry", "entries", "stay_duration", "nationality",
    "passport_number", "visa_status", "remarks" ]

/-- The keys the visa `__main__` print section (lines 93-106) looks up; the
issue and expiry dates are printed as literals, not lookups. -/
def visa_report_keys : List String :=
  [ "visa_type", "visa_category", "visa_number", "country", "place_of_issue",
    "purpose_of_visit", "port_of_entry", "entries", "stay_duration",
    "nationality", "passport_number", "visa_status", "remarks" ]

/-- Body of `create_visa_image` after font resolution: a 500x350 white
canvas, the draw calls of lines 49-78 in order, and the final
`image.resize((500, 450))` of line 81 before the surface is returned.  The
function writes no file and prints nothing.  Dictionary accesses are
modelled by a presence guard over `visa_render_keys` followed by total
lookups. -/
def create_visa_image_body (fonts : Fonts) : Option Image :=
  if visa_render_keys.all (fun k => (getField visa_data k).isSome) then
    let vtype := getFieldD visa_data "visa_type"
    let vcat := getFieldD visa_data "visa_category"
    let vnum := getFieldD visa_data "visa_number"
    let country := getFieldD visa_data "country"
    let authority := getFieldD visa_data "authority"
    let place := getFieldD visa_data "place_of_issue"
    let purpose := getFieldD visa_data "purpose_of_visit"
    let issued := getFieldD visa_data "issue_date"
    let expiry := getFieldD visa_data "expiry_date"
    let port := getFieldD visa_data "port_of_entry"
    let entries := getFieldD visa_data "entries"
    let stay := getFieldD visa_data "stay_duration"
    let nationality := getFieldD visa_data "nationality"
    let pnum := getFieldD visa_data "passport_number"
    let status := getFieldD visa_data "visa_status"
    let remarks := getFieldD visa_data "remarks"
    let ds : List Directive :=
      [ Directive.rectOutline 10 10 490 50 "black" 2,
        Directive.text 20 20 "INDIAN VISA" fonts.font_large "black",
        Directive.text 20 70 ("Visa Type: " ++ vtype) fonts.font_medium "black",
        Directive.text 20 90 ("Visa Category: " ++ vcat) fonts.font_medium "black",
        Directive.text 20 110 ("Visa Number: " ++ vnum) fonts.font_medium "black",
        Directive.text 20 130 ("Country: " ++ country) fonts.font_medium "black",
        Directive.text 20 150 ("Authority: " ++ authority) fonts.font_medium "black",
        Directive.text 20 170 ("Place of Issue: " ++ place) fonts.font_medium "black",
        Directive.text 20 190 ("Purpose: " ++ purpose) fonts.font_medium "black",
        Directive.text 20 200 ("Issue Date: " ++ issued) fonts.font_medium "red",
        Directive.text 20 220 ("Expiry Date: " ++ expiry) fonts.font_medium "black",
        Directive.text 20 250 ("Port of Entry: " ++ port) fonts.font_medium "black",
        Directive.text 20 270 ("Entries: " ++ entries) fonts.font_medium "black",
        Directive.text 20 290 ("Stay Duration: " ++ stay) fonts.font_medium "black",
        Directive.text 20 310 ("Nationality: " ++ nationality) fonts.font_medium "black",
        Directive.text 20 330 ("Passport No: " ++ pnum) fonts.font_medium "black",
        Directive.text 20 350 ("Status: " ++ status) fonts.font_medium "black",
        Directive.text 20 370 ("Remarks: " ++ remarks) fonts.font_medium "black",
        Directive.rectOutline 5 5 495 345 "blue" 3 ]
    let image : Image := { width := 500, height := 350, background := "white", directives := ds }
    some (image.resize 500 450)
  else none

/-- The function `create_visa_image`: resolves fonts itself (sizes 14/11/9)
and returns the rendered (and resized) surface. -/
def create_visa_image (ok : String → Nat → Bool) : Option Image :=
  create_visa_image_body (loadFontsWith ok 14 11 9)

/-- The `__main__` block of the visa script (lines 83-107): render, save as
JPEG quality 95, then print the expected extracted data.  The printed issue
and expiry dates are ISO-format literals written in the source, not record
lookups. -/
def visa_main_body (fonts : Fonts) : Except String (List Event) :=
  match create_visa_image_body fonts with
  | none => Except.error "KeyError"
  | some image =>
    if visa_report_keys.all (fun k => (getField visa_data k).isSome) then
      let vtype := getFieldD visa_data "visa_type"
      let vcat := getFieldD visa_data "visa_category"
      let vnum := getFieldD visa_data "visa_number"
      let country := getFieldD visa_data "country"
      let place := getFieldD visa_data "place_of_issue"
      let purpose := getFieldD visa_data "purpose_of_visit"
      let port := getFieldD visa_data "port_of_entry"
      let entries := getFieldD visa_data "entries"
      let stay := getFieldD visa_data "stay_duration"
      let nationality := getFieldD visa_data "nationality"
      let pnum := getFieldD visa_data "passport_number"
      let status := getFieldD visa_data "visa_status"
      let remarks := getFieldD visa_data "remarks"
      let saved : SavedFile :=
        { filename := "visa.jpg", format := "JPEG", quality := 95,
          width := image.width, height := image.height }
      let report : List String :=
        [ "Created visa.jpg with Indian visa data",
          "\nExpected extracted data (FRRO C-Form Ready):",
          "Visa Type: " ++ vtype,
          "Visa Category: " ++ vcat,
          "Visa Number: " ++ vnum,
          "Country: " ++ country,
          "Place of Issue: " ++ place,
          "Purpose of Visit: " ++ purpose,
          "Issue Date: 2025-03-14",
          "Expiry Date: 2026-03-09",
          "Port of Entry: " ++ port,
          "Entries: " ++ entries,
          "Duration of Stay: " ++ stay,
          "Nationality: " ++ nationality,
          "Passport Number: " ++ pnum,
          "Visa Status: " ++ status,
          "Remarks: " ++ remarks ]
      Except.ok (image.directives.map Event.draw ++ [Event.save saved] ++ report.map Event.print)
    else Except.error "KeyError"

/-- The visa script as run: `__main__` with fonts resolved at sizes 14/11/9. -/
def visa_main (ok : String → Nat → Bool) : Except String (List Event) :=
  visa_main_body (loadFontsWith ok 14 11 9)

/-- Completed-run trace of the visa script. -/
def visa_trace (ok : String → Nat → Bool) : List Event :=
  runEvents (visa_main ok)

/-- The events emitted by the renderer function `create_visa_image` itself:
its draw calls only (it writes no file and prints nothing). -/
def visa_renderer_trace (ok : String → Nat → Bool) : List Event :=
  match create_visa_image ok with
  | some image => image.directives.map Event.draw
  | none => []

/-! ## Per-script constants derived from the source -/

/-- The file `create_test_aadhaar` writes (line 57): `aadhaar.jpg`, JPEG,
quality 95, encoding the 600x400 surface. -/
def aadhaarFile : SavedFile :=
  { filename := "aadhaar.jpg", format := "JPEG", quality := 95, width := 600, height := 400 }

/-- The file `create_test_pan` writes (line 54). -/
def panFile : SavedFile :=
  { filename := "pan.jpg", format := "JPEG", quality := 95, width := 600, height := 400 }

/-- The file the passport `__main__` writes (line 87). -/
def passportFile : SavedFile :=
  { filename := "passport.jpg", format := "JPEG", quality := 95, width := 600, height := 400 }

/-- The file the visa `__main__` writes (line 88): the surface was resized
to 500x450 before saving. -/
def visaFile : SavedFile :=
  { filename := "visa.jpg", format := "JPEG", quality := 95, width := 500, height := 450 }

/-- Canvas size declared by `Image.new` in each script. -/
def aadhaar_canvas : Nat × Nat := (600, 400)

def pan_canvas : Nat × Nat := (600, 400)

def passport_canvas : Nat × Nat := (600, 400)

def visa_canvas : Nat × Nat := (500, 350)

/-- The (label, value) pairs of the aadhaar script's expected-extracted-data
print section (lines 61-65), values computed as the source computes them
(dictionary lookups). -/
def aadhaar_expected : List (String × String) :=
  [ ("Full Name", getFieldD aadhaar_data "name"),
    ("Aadhaar Number", getFieldD aadhaar_data "aadhaar_number"),
    ("Date of Birth", getFieldD aadhaar_data "date_of_birth"),
    ("Address", getFieldD aadhaar_data "address"),
    ("Gender", getFieldD aadhaar_data "gender") ]

/-- The (label, value) pairs of the pan script's expected-extracted-data
print section (lines 58-61). -/
def pan_expected : List (String × String) :=
  [ ("Full Name", getFieldD pan_data "name"),
    ("PAN Number", getFieldD pan_data "pan_number"),
    ("Father\x27s Name", getFieldD pan_data "father_name"),
    ("Date of Birth", getFieldD pan_data "date_of_birth") ]

/-- The (label, value) pairs of the passport script's expected-extracted-data
print section (lines 92-97): the full name is a reformatted combination of
two record fields, and the nationality, date-of-birth, expiry and issue
values are literals written in the print statements, not record lookups. -/
def passport_expected : List (String × String) :=
  [ ("Full Name", getFieldD passport_data "surname" ++ ", " ++ getFieldD passport_data "given_name"),
    ("Passport Number", getFieldD passport_data "document_number"),
    ("Nationality", "Estonia"),
    ("Date of Birth", "1990-10-19"),
    ("Expiry Date", "2033-02-13"),
    ("Issue Date", "2023-02-13") ]

/-- The (label, value) pairs of the visa script's expected-extracted-data
print section (lines 93-106): the issue and expiry dates are ISO-format
literals written in the print statements, not record lookups. -/
def visa_expected : List (String × String) :=
  [ ("Visa Type", getFieldD visa_data "visa_type"),
    ("Visa Category", getFieldD visa_data "visa_category"),
    ("Visa Number", getFieldD visa_data "visa_number"),
    ("Country", getFieldD visa_data "country"),
    ("Place of Issue", getFieldD visa_data "place_of_issue"),
    ("Purpose of Visit", getFieldD visa_data "purpose_of_visit"),
    ("Issue Date", "2025-03-14"),
    ("Expiry Date", "2026-03-09"),
    ("Port of Entry", getFieldD visa_data "port_of_entry"),
    ("Entries", getFieldD visa_data "entries"),
    ("Duration of Stay", getFieldD visa_data "stay_duration"),
    ("Nationality", getFieldD visa_data "nationality"),
    ("Passport Number", getFieldD visa_data "passport_number"),
    ("Visa Status", getFieldD visa_data "visa_status"),
    ("Remarks", getFieldD visa_data "remarks") ]

/-- Alias making explicit that for the aadhaar script the renderer function
is `create_test_aadhaar` itself, which draws, saves and prints in one body. -/
def aadhaar_renderer_trace (ok : String → Nat → Bool) : List Event :=
  runEvents (create_test_aadhaar ok)

/-- Alias making explicit that for the pan script the renderer function is
`create_test_pan` itself, which draws, saves and prints in one body. -/
def pan_renderer_trace (ok : String → Nat → Bool) : List Event :=
  runEvents (create_test_pan ok)

/-- A script process as the OS runs it: every Python process receives an
argv and an environment; none of the four scripts reads either (no
`sys.argv`, no `os.environ`, no configuration file is opened), so the run
is independent of both. -/
def aadhaar_process (_argv : List String) (_env : String → Option String)
    (ok : String → Nat → Bool) : Except String (List Event) :=
  create_test_aadhaar ok

def pan_process (_argv : List String) (_env : String → Option String)
    (ok : String → Nat → Bool) : Except String (List Event) :=
  create_test_pan ok

def passport_process (_argv : List String) (_env : String → Option String)
    (ok : String → Nat → Bool) : Except String (List Event) :=
  passport_main ok

def visa_process (_argv : List String) (_env : String → Option String)
    (ok : String → Nat → Bool) : Except String (List Event) :=
  visa_main ok

/-! ## Claims -/

/-- C1 (amended).  In the aadhaar and pan scripts every value printed in the
expected-extracted-data section is printed as its labelled line and drawn
verbatim on the canvas (printing and drawing read the same record).  In the
passport and visa scripts every expected line is printed, and every value
the print section takes from the record is drawn verbatim, but the values
printed as reformatted literals are not all drawn: the passport's combined
full name and its three ISO-format dates, and the visa's two ISO-format
dates, appear nowhere in the drawn text (the canvas carries `19.10.1990`,
`13.02.2023`, `13.02.2033`, `14 MAR 2025`, `09 Mar 2026` instead). -/
theorem C1_printed_values_match_drawn_amended (ok : String → Nat → Bool) :
    (aadhaar_expected.all fun p =>
      (printedLines (aadhaar_trace ok)).contains (p.1 ++ ": " ++ p.2) &&
      valueDrawn (aadhaar_trace ok) p.2) = true ∧
    (pan_expected.all fun p =>
      (printedLines (pan_trace ok)).contains (p.1 ++ ": " ++ p.2) &&
      valueDrawn (pan_trace ok) p.2) = true ∧
    (passport_expected.all fun p =>
      (printedLines (passport_trace ok)).contains (p.1 ++ ": " ++ p.2)) = true ∧
    (visa_expected.all fun p =>
      (printedLines (visa_trace ok)).contains (p.1 ++ ": " ++ p.2)) = true ∧
    ((passport_report_keys.map (getFieldD passport_data)).all fun v =>
      valueDrawn (passport_trace ok) v) = true ∧
    valueDrawn (passport_trace ok) "Estonia" = true ∧
    ((["UUENI, KATRINA", "1990-10-19", "2033-02-13", "2023-02-13"] : List String).any fun v =>
      valueDrawn (passport_trace ok) v) = false ∧
    ((visa_report_keys.map (getFieldD visa_data)).all fun v =>
      valueDrawn (visa_trace ok) v) = true ∧
    ((["2025-03-14", "2026-03-09"] : List String).any fun v =>
      valueDrawn (visa_trace ok) v) = false :=
  ⟨rfl, rfl, rfl, rfl, rfl, rfl, rfl, rfl, rfl⟩

/-- C1 counterexample.  The passport script prints the expected date of
birth as the ISO literal `1990-10-19`, but that string is drawn nowhere on
the image; the record value drawn is `19.10.1990`.  So a printed
expected-data value differs character for character from the value embedded
in the rendered image. -/
theorem C1_printed_values_counterexample :
    ("Date of Birth", "1990-10-19") ∈ passport_expected ∧
    (printedLines (passport_trace (fun _ _ => true))).contains "Date of Birth: 1990-10-19" = true ∧
    valueDrawn (passport_trace (fun _ _ => true)) "1990-10-19" = false ∧
    valueDrawn (passport_trace (fun _ _ => true)) "19.10.1990" = true :=
  ⟨by decide, rfl, rfl, rfl⟩

/-- C2 (confirmed).  The aadhaar generator reports full name
`KATRINA UUENI` and ID number `1234 5678 9012` in its console output, and
those exact record strings are the ones drawn in the name line at offset
(20, 80) and the Aadhaar-number line at offset (20, 105). -/
theorem C2_aadhaar_reported_and_drawn (ok : String → Nat → Bool) :
    getField aadhaar_data "name" = some "KATRINA UUENI" ∧
    getField aadhaar_data "aadhaar_number" = some "1234 5678 9012" ∧
    (printedLines (aadhaar_trace ok)).contains "Full Name: KATRINA UUENI" = true ∧
    (printedLines (aadhaar_trace ok)).contains "Aadhaar Number: 1234 5678 9012" = true ∧
    textAt (aadhaar_trace ok) 20 80 "Name: KATRINA UUENI" = true ∧
    textAt (aadhaar_trace ok) 20 105 "Aadhaar No: 1234 5678 9012" = true :=
  ⟨rfl, rfl, rfl, rfl, rfl, rfl⟩

/-- C3 (confirmed).  For each script, whenever loading the preferred
TrueType font fails at any of the script's three sizes (for any reason the
oracle records a failure), all three font tiers fall back to the built-in
default font, and the script still completes with exit status 0 and writes
its output file: the failure is never propagated. -/
theorem C3_font_fallback (ok : String → Nat → Bool) :
    ((ok arialPath 24 && ok arialPath 16 && ok arialPath 12) = false →
      loadFontsWith ok 24 16 12 = fallbackFonts ∧
      exitCode (create_test_aadhaar ok) = 0 ∧ savedFiles (aadhaar_trace ok) = [aadhaarFile] ∧
      exitCode (create_test_pan ok) = 0 ∧ savedFiles (pan_trace ok) = [panFile]) ∧
    ((ok arialPath 16 && ok arialPath 12 && ok arialPath 10) = false →
      loadFontsWith ok 16 12 10 = fallbackFonts ∧
      exitCode (passport_main ok) = 0 ∧ savedFiles (passport_trace ok) = [passportFile]) ∧
    ((ok arialPath 14 && ok arialPath 11 && ok arialPath 9) = false →
      loadFontsWith ok 14 11 9 = fallbackFonts ∧
      exitCode (visa_main ok) = 0 ∧ savedFiles (visa_trace ok) = [visaFile]) := by
  refine ⟨fun h => ⟨?_, rfl, rfl, rfl, rfl⟩, fun h => ⟨?_, rfl, rfl⟩, fun h => ⟨?_, rfl, rfl⟩⟩ <;>
    simp [loadFontsWith, h]

/-- Witness for C3 at the oracle that fails every load. -/
theorem C3_font_fallback_witness :
    loadFontsWith (fun _ _ => false) 24 16 12 = fallbackFonts ∧
    exitCode (create_test_aadhaar (fun _ _ => false)) = 0 ∧
    savedFiles (aadhaar_trace (fun _ _ => false)) = [aadhaarFile] ∧
    exitCode (create_test_pan (fun _ _ => false)) = 0 ∧
    savedFiles (pan_trace (fun _ _ => false)) = [panFile] ∧
    loadFontsWith (fun _ _ => false) 16 12 10 = fallbackFonts ∧
    exitCode (passport_main (fun _ _ => false)) = 0 ∧
    savedFiles (passport_trace (fun _ _ => false)) = [passportFile] ∧
    loadFontsWith (fun _ _ => false) 14 11 9 = fallbackFonts ∧
    exitCode (visa_main (fun _ _ => false)) = 0 ∧
    savedFiles (visa_trace (fun _ _ => false)) = [visaFile] := by
  have h := C3_font_fallback (fun _ _ => false)
  have h1 := h.1 rfl
  have h2 := h.2.1 rfl
  have h3 := h.2.2 rfl
  exact ⟨h1.1, h1.2.1, h1.2.2.1, h1.2.2.2.1, h1.2.2.2.2,
         h2.1, h2.2.1, h2.2.2, h3.1, h3.2.1, h3.2.2⟩

/-- C4 (amended).  The aadhaar, pan and passport scripts write files with
exactly the canvas dimensions they allocate (600x400).  The visa script
allocates a 500x350 canvas but resizes the surface to 500x450 before
saving, so `visa.jpg` has dimensions 500x450, not the allocated 500x350. -/
theorem C4_saved_dimensions_amended (ok : String → Nat → Bool) :
    savedFiles (aadhaar_trace ok) = [aadhaarFile] ∧
    (aadhaarFile.width, aadhaarFile.height) = aadhaar_canvas ∧
    savedFiles (pan_trace ok) = [panFile] ∧
    (panFile.width, panFile.height) = pan_canvas ∧
    savedFiles (passport_trace ok) = [passportFile] ∧
    (passportFile.width, passportFile.height) = passport_canvas ∧
    savedFiles (visa_trace ok) = [visaFile] ∧
    (visaFile.width, visaFile.height) = (visa_canvas.1, 450) ∧
    (visaFile.width, visaFile.height) ≠ visa_canvas :=
  ⟨rfl, rfl, rfl, rfl, rfl, rfl, rfl, rfl, by decide⟩

/-- C4 counterexample.  The visa script saves a 500x450 file, while the
canvas it declares when allocating the blank surface is 500x350. -/
theorem C4_saved_dimensions_counterexample :
    savedFiles (visa_trace (fun _ _ => true)) = [visaFile] ∧
    (visaFile.width, visaFile.height) ≠ visa_canvas :=
  ⟨rfl, by decide⟩

/-- C5 (amended).  In all four scripts every draw call precedes the single
file write, which precedes all console output.  In the passport and visa
scripts the renderer is a separate function that only draws and returns the
surface (the write happens afterwards in `__main__`), but in the aadhaar and
pan scripts the file write and the console report are performed inside the
rendering function itself, so the renderer of those two scripts is not free
of side effects beyond the surface. -/
theorem C5_renderer_effects_amended (ok : String → Nat → Bool) :
    pureRendererTrace (passport_renderer_trace ok) = true ∧
    pureRendererTrace (visa_renderer_trace ok) = true ∧
    pureRendererTrace (aadhaar_renderer_trace ok) = false ∧
    pureRendererTrace (pan_renderer_trace ok) = false ∧
    drawsSavePrints (aadhaar_trace ok) = true ∧
    drawsSavePrints (pan_trace ok) = true ∧
    drawsSavePrints (passport_trace ok) = true ∧
    drawsSavePrints (visa_trace ok) = true :=
  ⟨rfl, rfl, rfl, rfl, rfl, rfl, rfl, rfl⟩

/-- C5 counterexample.  The aadhaar script's rendering function
`create_test_aadhaar` itself emits the file write and the console report:
its event trace is not draw-only, contains the save of `aadhaar.jpg`, and
contains a print line.  So the rendering step is not a pure producer of the
surface with the write performed outside it. -/
theorem C5_renderer_effects_counterexample :
    pureRendererTrace (aadhaar_renderer_trace (fun _ _ => true)) = false ∧
    Event.save aadhaarFile ∈ aadhaar_renderer_trace (fun _ _ => true) ∧
    Event.print "Created aadhaar.jpg with Indian Aadhaar data" ∈
      aadhaar_renderer_trace (fun _ _ => true) :=
  ⟨rfl, by decide, by decide⟩

/-- C6 (confirmed).  Each script's run is a function of its font resolution
alone: two runs whose font resolution agrees produce identical traces
(identical draw directives in identical order, identical file write,
identical console output).  No other run-dependent input occurs. -/
theorem C6_determinism (ok1 ok2 : String → Nat → Bool) :
    (loadFontsWith ok1 24 16 12 = loadFontsWith ok2 24 16 12 →
      create_test_aadhaar ok1 = create_test_aadhaar ok2 ∧
      create_test_pan ok1 = create_test_pan ok2) ∧
    (loadFontsWith ok1 16 12 10 = loadFontsWith ok2 16 12 10 →
      create_passport_image ok1 = create_passport_image ok2 ∧
      passport_main ok1 = passport_main ok2) ∧
    (loadFontsWith ok1 14 11 9 = loadFontsWith ok2 14 11 9 →
      create_visa_image ok1 = create_visa_image ok2 ∧
      visa_main ok1 = visa_main ok2) := by
  refine ⟨fun h => ?_, fun h => ?_, fun h => ?_⟩
  · exact ⟨congrArg create_test_aadhaar_body h, congrArg create_test_pan_body h⟩
  · exact ⟨congrArg create_passport_image_body h, congrArg passport_main_body h⟩
  · exact ⟨congrArg create_visa_image_body h, congrArg visa_main_body h⟩

/-- Witness for C6 at two distinct oracles with the same font resolution. -/
theorem C6_determinism_witness :
    create_test_aadhaar (fun _ _ => true) = create_test_aadhaar (fun _ s => 0 < s) ∧
    create_test_pan (fun _ _ => true) = create_test_pan (fun _ s => 0 < s) ∧
    create_passport_image (fun _ _ => true) = create_passport_image (fun _ s => 0 < s) ∧
    passport_main (fun _ _ => true) = passport_main (fun _ s => 0 < s) ∧
    create_visa_image (fun _ _ => true) = create_visa_image (fun _ s => 0 < s) ∧
    visa_main (fun _ _ => true) = visa_main (fun _ s => 0 < s) := by
  have h := C6_determinism (fun _ _ => true) (fun _ s => 0 < s)
  have h1 := h.1 (by decide)
  have h2 := h.2.1 (by decide)
  have h3 := h.2.2 (by decide)
  exact ⟨h1.1, h1.2, h2.1, h2.2, h3.1, h3.2⟩

/-- C7 (confirmed).  Every key each script looks up in its record during
rendering is present in that record, so the `KeyError` branch is
unreachable: both stand-alone renderers return a surface and both
render-save-report scripts complete with exit status 0, for every font
resolution. -/
theorem C7_render_keys_present (ok : String → Nat → Bool) :
    (aadhaar_render_keys.all fun k => (getField aadhaar_data k).isSome) = true ∧
    (pan_render_keys.all fun k => (getField pan_data k).isSome) = true ∧
    (passport_render_keys.all fun k => (getField passport_data k).isSome) = true ∧
    (visa_render_keys.all fun k => (getField visa_data k).isSome) = true ∧
    (create_passport_image ok).isSome = true ∧
    (create_visa_image ok).isSome = true ∧
    exitCode (create_test_aadhaar ok) = 0 ∧
    exitCode (create_test_pan ok) = 0 :=
  ⟨rfl, rfl, rfl, rfl, rfl, rfl, rfl, rfl⟩

/-- C8 (confirmed).  Each script run writes exactly one file: a JPEG at
quality 95, to its fixed filename in the working directory, for every font
resolution. -/
theorem C8_single_fixed_output (ok : String → Nat → Bool) :
    savedFiles (aadhaar_trace ok) =
      [{ filename := "aadhaar.jpg", format := "JPEG", quality := 95, width := 600, height := 400 }] ∧
    savedFiles (pan_trace ok) =
      [{ filename := "pan.jpg", format := "JPEG", quality := 95, width := 600, height := 400 }] ∧
    savedFiles (passport_trace ok) =
      [{ filename := "passport.jpg", format := "JPEG", quality := 95, width := 600, height := 400 }] ∧
    savedFiles (visa_trace ok) =
      [{ filename := "visa.jpg", format := "JPEG", quality := 95, width := 500, height := 450 }] :=
  ⟨rfl, rfl, rfl, rfl⟩

/-- C9 (confirmed).  Each script's run is independent of the argv and the
environment the process receives (the scripts read neither, and open no
configuration file), and every run terminates normally with exit status 0,
whatever the font resolution. -/
theorem C9_no_inputs_exit_zero (argv argv2 : List String)
    (env env2 : String → Option String) (ok : String → Nat → Bool) :
    aadhaar_process argv env ok = aadhaar_process argv2 env2 ok ∧
    exitCode (aadhaar_process argv env ok) = 0 ∧
    pan_process argv env ok = pan_process argv2 env2 ok ∧
    exitCode (pan_process argv env ok) = 0 ∧
    passport_process argv env ok = passport_process argv2 env2 ok ∧
    exitCode (passport_process argv env ok) = 0 ∧
    visa_process argv env ok = visa_process argv2 env2 ok ∧
    exitCode (visa_process argv env ok) = 0 :=
  ⟨rfl, rfl, rfl, rfl, rfl, rfl, rfl, rfl⟩

/-- C10 (confirmed).  Whenever any of the three TrueType loads fails — the
oracle abstracts over the cause, matching the scripts' unqualified
`except:` — the fallback binds `font_large`, `font_medium` and `font_small`
to one and the same built-in default font, for any size triple. -/
theorem C10_fallback_uniform (ok : String → Nat → Bool) (sL sM sS : Nat) :
    (ok arialPath sL && ok arialPath sM && ok arialPath sS) = false →
    loadFontsWith ok sL sM sS = fallbackFonts ∧
    (loadFontsWith ok sL sM sS).font_large = (loadFontsWith ok sL sM sS).font_medium ∧
    (loadFontsWith ok sL sM sS).font_medium = (loadFontsWith ok sL sM sS).font_small ∧
    (loadFontsWith ok sL sM sS).font_large = Font.load_default := by
  intro h
  have hf : loadFontsWith ok sL sM sS = fallbackFonts := by simp [loadFontsWith, h]
  rw [hf]
  exact ⟨rfl, rfl, rfl, rfl⟩

/-- Witness for C10 at an oracle that succeeds only at size 16: even a
partial failure (sizes 24 and 12 fail) forces all three tiers to the same
default font. -/
theorem C10_fallback_uniform_witness :
    loadFontsWith (fun _ s => s == 16) 24 16 12 = fallbackFonts ∧
    (loadFontsWith (fun _ s => s == 16) 24 16 12).font_large =
      (loadFontsWith (fun _ s => s == 16) 24 16 12).font_medium ∧
    (loadFontsWith (fun _ s => s == 16) 24 16 12).font_medium =
      (loadFontsWith (fun _ s => s == 16) 24 16 12).font_small ∧
    (loadFontsWith (fun _ s => s == 16) 24 16 12).font_large = Font.load_default :=
  C10_fallback_uniform (fun _ s => s == 16) 24 16 12 (by decide)
